import Mathlib

/-!
Shallow embedding of the caloric-needs estimation engine of the
CalCulator application (source file `calculate.py`): the trend estimator
`calculate_weight_trend` and the caloric-needs calculator
`calculate_caloric_needs`, together with theorems checking the
specification's statements about them.

Python floats are modelled as real numbers; Python's `round` (which
rounds half to even) is modelled by `pyRound`; a raised `ValueError`
is modelled by `Except.error` carrying the exact message string.
The database fetches of `calculate_caloric_needs` are modelled by
passing the fetched values directly: the user row (absent when the
lookup fails) and the two value lists in descending-date order, which
is how the claims phrase the interface.
-/

namespace CalCulator

/-- Python's built-in `round`: nearest integer, ties to even. -/
noncomputable def pyRound (x : ℝ) : ℤ :=
  if Int.fract x = 1 / 2 then (if Even ⌊x⌋ then ⌊x⌋ else ⌊x⌋ + 1) else round x

/-- The user row of the `users` table as consumed by
`calculate_caloric_needs`: `SELECT sex, age, height, activity_level`. -/
structure UserProfile where
  sex : String
  age : ℝ
  height : ℝ
  activity_level : String

/-- The dictionary returned by `calculate_caloric_needs`. -/
structure CaloricNeedsResult where
  BMR : ℤ
  Maintenance : ℤ
  Gain : ℤ
  Lose : ℤ
  Recommendation : String
  Warning : String

/-- `decay_weights = np.exp(-np.arange(days) / half_life)` from
`calculate_weight_trend`. -/
noncomputable def decay_weights (days : ℕ) (half_life : ℝ) : List ℝ :=
  (List.range days).map fun i : ℕ => Real.exp (-(i : ℝ) / half_life)

/-- `decay_weights /= decay_weights.sum()` from `calculate_weight_trend`. -/
noncomputable def normalized_decay_weights (days : ℕ) (half_life : ℝ) : List ℝ :=
  (decay_weights days half_life).map fun d => d / (decay_weights days half_life).sum

/-- `calculate_weight_trend(weights, half_life=7)`: the exponentially
weighted moving average `np.sum(weights * decay_weights)` after the decay
weights are normalized. The source performs no validation of `half_life`. -/
noncomputable def calculate_weight_trend (weights : List ℝ) (half_life : ℝ) : ℝ :=
  (List.zipWith (· * ·) weights (normalized_decay_weights weights.length half_life)).sum

/-- The `pal_dict` lookup of `calculate_caloric_needs`; `dict.get` yields
`None` for an unknown key, and every stored factor is non-zero, so the
source's `if not pal` test is exactly the `none` test. -/
noncomputable def pal_dict (level : String) : Option ℝ :=
  if level = "sedentary" then some 1.2
  else if level = "lightly active" then some 1.375
  else if level = "moderately active" then some 1.55
  else if level = "very active" then some 1.725
  else if level = "extremely active" then some 1.9
  else none

/-- The `bmr` expression of `calculate_caloric_needs` (Python `**` on
floats is real exponentiation, so `** 0.55` is `Real.rpow`). -/
noncomputable def bmr_value (sex : String) (age height currentWeight : ℝ) : ℝ :=
  129.6 * (currentWeight * 0.453592) ^ (0.55 : ℝ)
    + 0.011 * (height * 2.54) ^ 2
    - (if age ≤ 60 then 1.96 * age else 4.9 * (age - 60))
    - 213.8 * (if sex.toLower = "male" then 0 else 1)

/-- `avg_weight_change = (weight_trend - weights[0]) / (len(weights) / 7)`
with `weight_trend = calculate_weight_trend(weights)` (default half-life 7). -/
noncomputable def avg_weight_change_value (weights : List ℝ) : ℝ :=
  (calculate_weight_trend weights 7 - weights.headI) / ((weights.length : ℝ) / 7)

/-- `maintenance_calories = avg_calories - energy_balance` where
`avg_calories = sum(calories) / len(calories)` and
`energy_balance = avg_weight_change * 3500`. -/
noncomputable def maintenance_value (weights calories : List ℝ) : ℝ :=
  calories.sum / (calories.length : ℝ) - avg_weight_change_value weights * 3500

/-- The maintaining-branch recommendation string of `calculate_caloric_needs`. -/
def maintaining_message : String :=
  "You are maintaining weight. Continue at your current calorie level\nif you want to stay around this weight."

/-- Model of Python string formatting with two decimal places (`:.2f`)
as the integer number of hundredths, rendered in decimal: the claims
depend only on the produced strings being non-empty, never on the
rendering of the rate. -/
noncomputable def formatTwoDecimals (x : ℝ) : String :=
  toString (pyRound (x * 100))

/-- The losing-branch recommendation f-string of `calculate_caloric_needs`. -/
noncomputable def losing_message (x : ℝ) : String :=
  "You are losing weight at " ++ formatTwoDecimals x ++ " lbs/week." ++
    "Consider increasing calories if you don't want to lose weight this quickly."

/-- The gaining-branch recommendation f-string of `calculate_caloric_needs`. -/
noncomputable def gaining_message (x : ℝ) : String :=
  "You are gaining weight at " ++ formatTwoDecimals x ++ " lbs/week." ++
    "Consider reducing calories if you don't want to gain weight this quickly."

/-- The rapid-change warning of `calculate_caloric_needs`: set for
`avg_weight_change < -1.5` or `> 0.75`, empty otherwise, independently
of the recommendation branch. -/
noncomputable def warning_value (x : ℝ) : String :=
  if x < -1.5 then
    "Warning: You are losing weight too rapidly. Consider increasing calories."
  else if x > 0.75 then
    "Warning: You are gaining weight too rapidly. Consider reducing calories."
  else ""

/-- The result dictionary built by `calculate_caloric_needs` once
validation has passed: `delta = 0.1`; the maintaining branch overrides
`maintenance_calories` with `round(calories[0])` and rebuilds the gain
and lose targets from it, the other branches keep the values computed
from `maintenance_value`; every field is rounded on return. The source
writes the gain offset as `(0.5 * 3500) / 7` and the lose offset as
`(1.0 * 3500) / 7`. -/
noncomputable def compute_result (u : UserProfile) (pal : ℝ)
    (weights calories : List ℝ) : CaloricNeedsResult :=
  let maintenance_bmr := bmr_value u.sex u.age u.height weights.headI * pal
  let delta : ℝ := 0.1
  let avg_weight_change := avg_weight_change_value weights
  let maintenance_calories := maintenance_value weights calories
  let gain_calories := maintenance_calories + 0.5 * 3500 / 7
  let lose_calories := maintenance_calories - 1.0 * 3500 / 7
  if -delta ≤ avg_weight_change ∧ avg_weight_change ≤ delta then
    { BMR := pyRound maintenance_bmr
      Maintenance := pyRound ((pyRound calories.headI : ℝ))
      Gain := pyRound ((pyRound calories.headI : ℝ) + 0.5 * 3500 / 7)
      Lose := pyRound ((pyRound calories.headI : ℝ) - 1.0 * 3500 / 7)
      Recommendation := maintaining_message
      Warning := warning_value avg_weight_change }
  else if avg_weight_change < -delta then
    { BMR := pyRound maintenance_bmr
      Maintenance := pyRound maintenance_calories
      Gain := pyRound gain_calories
      Lose := pyRound lose_calories
      Recommendation := losing_message avg_weight_change
      Warning := warning_value avg_weight_change }
  else if avg_weight_change > delta then
    { BMR := pyRound maintenance_bmr
      Maintenance := pyRound maintenance_calories
      Gain := pyRound gain_calories
      Lose := pyRound lose_calories
      Recommendation := gaining_message avg_weight_change
      Warning := warning_value avg_weight_change }
  else
    { BMR := pyRound maintenance_bmr
      Maintenance := pyRound maintenance_calories
      Gain := pyRound gain_calories
      Lose := pyRound lose_calories
      Recommendation := ""
      Warning := warning_value avg_weight_change }

/-- `calculate_caloric_needs`, with the database reads replaced by their
results: `user_data` is the fetched user row (`none` when absent) and
`weights`, `calories` are the fetched value lists in descending-date
order. The validation steps and their `ValueError` messages are in the
source's order: length mismatch, empty data, missing user, unknown
activity level. The part after the user fetch (the `pal_dict` check and
the computation) is split into `calculate_caloric_needs_with_user`. -/
noncomputable def calculate_caloric_needs_with_user (u : UserProfile)
    (weights calories : List ℝ) : Except String CaloricNeedsResult :=
  match pal_dict u.activity_level with
  | none => Except.error "Invalid activity level."
  | some pal => Except.ok (compute_result u pal weights calories)

noncomputable def calculate_caloric_needs (user_data : Option UserProfile)
    (weights calories : List ℝ) : Except String CaloricNeedsResult :=
  if weights.length ≠ calories.length then
    Except.error "Weights and calories lists must have the same length."
  else if weights = [] ∨ calories = [] then
    Except.error "No data found for the user."
  else
    match user_data with
    | none => Except.error "User data not found."
    | some u => calculate_caloric_needs_with_user u weights calories

/-! ### Helper lemmas about `pyRound` -/

theorem pyRound_intCast (n : ℤ) : pyRound (n : ℝ) = n := by
  unfold pyRound
  rw [Int.fract_intCast]
  norm_num

theorem pyRound_add_int_of_even (x : ℝ) (n : ℤ) (hn : Even n) :
    pyRound (x + (n : ℝ)) = pyRound x + n := by
  unfold pyRound
  rw [Int.fract_add_int, Int.floor_add_int, round_add_int]
  by_cases h : Int.fract x = 1 / 2
  · rw [if_pos h, if_pos h]
    have : Even (⌊x⌋ + n) ↔ Even ⌊x⌋ := by
      rw [Int.even_add]
      exact ⟨fun hiff => hiff.mpr hn, fun he => ⟨fun _ => hn, fun _ => he⟩⟩
    by_cases he : Even ⌊x⌋
    · rw [if_pos (this.mpr he), if_pos he]
    · rw [if_neg (fun hc => he (this.mp hc)), if_neg he]
      ring
  · rw [if_neg h, if_neg h]

/-! ### Helper lemmas about the trend estimator -/

theorem decay_weights_length (days : ℕ) (h : ℝ) :
    (decay_weights days h).length = days := by
  simp [decay_weights]

theorem decay_weights_pos (days : ℕ) (h : ℝ) :
    ∀ d ∈ decay_weights days h, 0 < d := by
  intro d hd
  simp only [decay_weights, List.mem_map] at hd
  obtain ⟨i, _, rfl⟩ := hd
  exact Real.exp_pos _

theorem decay_weights_sum_pos (days : ℕ) (h : ℝ) (hdays : 0 < days) :
    0 < (decay_weights days h).sum := by
  apply List.sum_pos _ (decay_weights_pos days h)
  intro hnil
  have := decay_weights_length days h
  rw [hnil] at this
  simp at this
  omega

theorem sum_map_div_eq (l : List ℝ) (s : ℝ) : (l.map fun d => d / s).sum = l.sum / s := by
  induction l with
  | nil => simp
  | cons a t ih => simp [ih, add_div]

theorem normalized_decay_weights_sum (days : ℕ) (h : ℝ) (hdays : 0 < days) :
    (normalized_decay_weights days h).sum = 1 := by
  have hs := decay_weights_sum_pos days h hdays
  unfold normalized_decay_weights
  rw [sum_map_div_eq]
  exact div_self (ne_of_gt hs)

theorem normalized_decay_weights_nonneg (days : ℕ) (h : ℝ) :
    ∀ d ∈ normalized_decay_weights days h, 0 ≤ d := by
  intro d hd
  simp only [normalized_decay_weights, List.mem_map] at hd
  obtain ⟨e, he, rfl⟩ := hd
  have h1 := decay_weights_pos days h e he
  rcases le_or_lt 0 (decay_weights days h).sum with h2 | h2
  · exact div_nonneg h1.le h2
  · exact absurd h2 (not_lt.mpr (List.sum_nonneg fun x hx => (decay_weights_pos days h x hx).le))

theorem zipWith_mul_map_range_sum (ws : List ℝ) (g : ℕ → ℝ) :
    (List.zipWith (· * ·) ws ((List.range ws.length).map g)).sum =
      ∑ i ∈ Finset.range ws.length, ws.getD i 0 * g i := by
  induction ws generalizing g with
  | nil => simp
  | cons a t ih =>
    rw [List.length_cons, List.range_succ_eq_map]
    simp only [List.map_cons, List.zipWith_cons_cons, List.sum_cons, List.map_map,
      Function.comp_def, Nat.succ_eq_add_one]
    rw [Finset.sum_range_succ']
    simp only [List.getD_cons_succ, List.getD_cons_zero]
    rw [ih (fun i => g (i + 1))]
    ring

/-- The trend is the normalized exponentially weighted sum, written out. -/
theorem calculate_weight_trend_eq_sum (ws : List ℝ) (h : ℝ) :
    calculate_weight_trend ws h =
      ∑ i ∈ Finset.range ws.length,
        ws.getD i 0 * (Real.exp (-(i : ℝ) / h) / (decay_weights ws.length h).sum) := by
  unfold calculate_weight_trend normalized_decay_weights decay_weights
  rw [List.map_map]
  exact zipWith_mul_map_range_sum ws _

theorem zipWith_mul_sum_le (ws ds : List ℝ) (M : ℝ)
    (hlen : ws.length = ds.length)
    (hd : ∀ d ∈ ds, 0 ≤ d) (hw : ∀ w ∈ ws, w ≤ M) :
    (List.zipWith (· * ·) ws ds).sum ≤ M * ds.sum := by
  induction ws generalizing ds with
  | nil =>
    cases ds with
    | nil => simp
    | cons d t => simp at hlen
  | cons a t ih =>
    cases ds with
    | nil => simp at hlen
    | cons d dt =>
      simp only [List.zipWith_cons_cons, List.sum_cons, mul_add]
      have hd0 : 0 ≤ d := hd d (List.mem_cons_self d dt)
      have ha : a ≤ M := hw a (List.mem_cons_self a t)
      have h1 : a * d ≤ M * d := mul_le_mul_of_nonneg_right ha hd0
      have h2 := ih dt (by simpa using hlen)
        (fun x hx => hd x (List.mem_cons_of_mem d hx))
        (fun x hx => hw x (List.mem_cons_of_mem a hx))
      linarith

theorem le_zipWith_mul_sum (ws ds : List ℝ) (m : ℝ)
    (hlen : ws.length = ds.length)
    (hd : ∀ d ∈ ds, 0 ≤ d) (hw : ∀ w ∈ ws, m ≤ w) :
    m * ds.sum ≤ (List.zipWith (· * ·) ws ds).sum := by
  induction ws generalizing ds with
  | nil =>
    cases ds with
    | nil => simp
    | cons d t => simp at hlen
  | cons a t ih =>
    cases ds with
    | nil => simp at hlen
    | cons d dt =>
      simp only [List.zipWith_cons_cons, List.sum_cons, mul_add]
      have hd0 : 0 ≤ d := hd d (List.mem_cons_self d dt)
      have ha : m ≤ a := hw a (List.mem_cons_self a t)
      have h1 : m * d ≤ a * d := mul_le_mul_of_nonneg_right ha hd0
      have h2 := ih dt (by simpa using hlen)
        (fun x hx => hd x (List.mem_cons_of_mem d hx))
        (fun x hx => hw x (List.mem_cons_of_mem a hx))
      linarith

theorem normalized_decay_weights_length (days : ℕ) (h : ℝ) :
    (normalized_decay_weights days h).length = days := by
  simp [normalized_decay_weights, decay_weights]

/-- Bounds for the trend: it is a convex combination of the samples. -/
theorem calculate_weight_trend_mem_Icc (ws : List ℝ) (h : ℝ) (m M : ℝ)
    (hne : ws ≠ []) (hm : ∀ w ∈ ws, m ≤ w) (hM : ∀ w ∈ ws, w ≤ M) :
    m ≤ calculate_weight_trend ws h ∧ calculate_weight_trend ws h ≤ M := by
  have hpos : 0 < ws.length := List.length_pos.mpr hne
  have hsum := normalized_decay_weights_sum ws.length h hpos
  have hnn := normalized_decay_weights_nonneg ws.length h
  have hlen : ws.length = (normalized_decay_weights ws.length h).length :=
    (normalized_decay_weights_length ws.length h).symm
  constructor
  · have := le_zipWith_mul_sum ws (normalized_decay_weights ws.length h) m hlen hnn hm
    rw [hsum, mul_one] at this
    exact this
  · have := zipWith_mul_sum_le ws (normalized_decay_weights ws.length h) M hlen hnn hM
    rw [hsum, mul_one] at this
    exact this

/-- The trend of a one-sample series is that sample. -/
theorem calculate_weight_trend_singleton (w : ℝ) (h : ℝ) :
    calculate_weight_trend [w] h = w := by
  unfold calculate_weight_trend normalized_decay_weights decay_weights
  have h1 : List.range [w].length = [0] := rfl
  rw [h1]
  simp

/-! ### Helper lemmas about the caloric-needs calculator -/

/-- When every validation step passes, the calculator returns the computed
result. -/
theorem calculate_caloric_needs_ok (u : UserProfile) (pal : ℝ) (ws cs : List ℝ)
    (hne : ws ≠ []) (hlen : ws.length = cs.length)
    (hpal : pal_dict u.activity_level = some pal) :
    calculate_caloric_needs (some u) ws cs =
      Except.ok (compute_result u pal ws cs) := by
  have hcne : cs ≠ [] := by
    intro hc
    apply hne
    rw [hc] at hlen
    exact List.length_eq_zero.mp hlen
  unfold calculate_caloric_needs
  rw [if_neg (by simp [hlen]), if_neg (by simp [hne, hcne])]
  show calculate_caloric_needs_with_user u ws cs = _
  unfold calculate_caloric_needs_with_user
  rw [hpal]

/-- Inversion: a successful return means every validation step passed and
the result is the computed one. -/
theorem calculate_caloric_needs_ok_inv (ud : Option UserProfile) (ws cs : List ℝ)
    (r : CaloricNeedsResult)
    (hok : calculate_caloric_needs ud ws cs = Except.ok r) :
    ∃ u pal, ud = some u ∧ pal_dict u.activity_level = some pal ∧
      r = compute_result u pal ws cs ∧ ws ≠ [] ∧ cs ≠ [] ∧
      ws.length = cs.length := by
  unfold calculate_caloric_needs at hok
  by_cases h1 : ws.length ≠ cs.length
  · rw [if_pos h1] at hok
    exact Except.noConfusion hok
  rw [if_neg h1] at hok
  by_cases h2 : ws = [] ∨ cs = []
  · rw [if_pos h2] at hok
    exact Except.noConfusion hok
  rw [if_neg h2] at hok
  push_neg at h1 h2
  cases ud with
  | none => exact Except.noConfusion hok
  | some u =>
    replace hok : calculate_caloric_needs_with_user u ws cs = Except.ok r := hok
    unfold calculate_caloric_needs_with_user at hok
    cases hpd : pal_dict u.activity_level with
    | none =>
      rw [hpd] at hok
      exact Except.noConfusion hok
    | some pal =>
      rw [hpd] at hok
      injection hok with hr
      exact ⟨u, pal, rfl, hpd, hr.symm, h2.1, h2.2, h1⟩

/-- The maintaining branch of `compute_result`, written out. -/
theorem compute_result_eq_maintaining (u : UserProfile) (pal : ℝ) (ws cs : List ℝ)
    (hin : -(0.1 : ℝ) ≤ avg_weight_change_value ws ∧ avg_weight_change_value ws ≤ 0.1) :
    compute_result u pal ws cs =
      { BMR := pyRound (bmr_value u.sex u.age u.height ws.headI * pal)
        Maintenance := pyRound ((pyRound cs.headI : ℝ))
        Gain := pyRound ((pyRound cs.headI : ℝ) + 0.5 * 3500 / 7)
        Lose := pyRound ((pyRound cs.headI : ℝ) - 1.0 * 3500 / 7)
        Recommendation := maintaining_message
        Warning := warning_value (avg_weight_change_value ws) } := by
  simp only [compute_result]
  rw [if_pos hin]

/-- The losing branch of `compute_result`, written out. -/
theorem compute_result_eq_losing (u : UserProfile) (pal : ℝ) (ws cs : List ℝ)
    (hlt : avg_weight_change_value ws < -(0.1 : ℝ)) :
    compute_result u pal ws cs =
      { BMR := pyRound (bmr_value u.sex u.age u.height ws.headI * pal)
        Maintenance := pyRound (maintenance_value ws cs)
        Gain := pyRound (maintenance_value ws cs + 0.5 * 3500 / 7)
        Lose := pyRound (maintenance_value ws cs - 1.0 * 3500 / 7)
        Recommendation := losing_message (avg_weight_change_value ws)
        Warning := warning_value (avg_weight_change_value ws) } := by
  simp only [compute_result]
  rw [if_neg (by intro hc; linarith [hc.1]), if_pos hlt]

/-- The gaining branch of `compute_result`, written out. -/
theorem compute_result_eq_gaining (u : UserProfile) (pal : ℝ) (ws cs : List ℝ)
    (hgt : (0.1 : ℝ) < avg_weight_change_value ws) :
    compute_result u pal ws cs =
      { BMR := pyRound (bmr_value u.sex u.age u.height ws.headI * pal)
        Maintenance := pyRound (maintenance_value ws cs)
        Gain := pyRound (maintenance_value ws cs + 0.5 * 3500 / 7)
        Lose := pyRound (maintenance_value ws cs - 1.0 * 3500 / 7)
        Recommendation := gaining_message (avg_weight_change_value ws)
        Warning := warning_value (avg_weight_change_value ws) } := by
  simp only [compute_result]
  rw [if_neg (by intro hc; linarith [hc.2]), if_neg (by intro hc; linarith), if_pos hgt]

/-- Any input falls in one of the three recommendation branches. -/
theorem avg_trichotomy (x : ℝ) :
    (-(0.1 : ℝ) ≤ x ∧ x ≤ 0.1) ∨ x < -(0.1 : ℝ) ∨ (0.1 : ℝ) < x := by
  rcases lt_trichotomy x (-(0.1 : ℝ)) with h | h | h
  · exact Or.inr (Or.inl h)
  · exact Or.inl ⟨le_of_eq h.symm, by linarith⟩
  · rcases le_or_lt x 0.1 with h2 | h2
    · exact Or.inl ⟨h.le, h2⟩
    · exact Or.inr (Or.inr h2)

/-! ### The claims -/

/-- C1: `calculate_caloric_needs` fails with a `DataError` (`ValueError`)
exactly when the weight or calorie history is empty, the two histories
differ in length, the activity level is not one of the five recognized
levels, or the user profile is absent; otherwise it returns a complete
result. -/
theorem calculate_caloric_needs_ok_iff (ud : Option UserProfile) (ws cs : List ℝ) :
    (∃ r, calculate_caloric_needs ud ws cs = Except.ok r) ↔
      ¬(ws = [] ∨ cs = [] ∨ ws.length ≠ cs.length ∨ ud = none ∨
        ∃ u, ud = some u ∧ pal_dict u.activity_level = none) := by
  constructor
  · rintro ⟨r, hr⟩
    obtain ⟨u, pal, hud, hpal, -, hne, hcne, hlen⟩ :=
      calculate_caloric_needs_ok_inv ud ws cs r hr
    push_neg
    refine ⟨hne, hcne, hlen, by simp [hud], ?_⟩
    intro u' hu'
    rw [hud] at hu'
    injection hu' with hu'
    rw [← hu', hpal]
    simp
  · intro hvalid
    push_neg at hvalid
    obtain ⟨hne, hcne, hlen, hud, hpal⟩ := hvalid
    obtain ⟨u, hu⟩ := Option.ne_none_iff_exists'.mp hud
    have hp := hpal u hu
    obtain ⟨pal, hp'⟩ := Option.ne_none_iff_exists'.mp hp
    rw [hu]
    exact ⟨compute_result u pal ws cs,
      calculate_caloric_needs_ok u pal ws cs hne hlen hp'⟩

theorem list_map_range_sum (n : ℕ) (f : ℕ → ℝ) :
    ((List.range n).map f).sum = ∑ i ∈ Finset.range n, f i := by
  induction n with
  | zero => simp
  | succ k ih =>
    rw [List.range_succ, List.map_append, List.sum_append, Finset.sum_range_succ, ih]
    simp

theorem decay_weights_sum_eq (n : ℕ) (h : ℝ) :
    (decay_weights n h).sum = ∑ j ∈ Finset.range n, Real.exp (-(j : ℝ) / h) :=
  list_map_range_sum n _

/-- The trend value written as the spec's normalized weighted sum, for any
half-life: the source applies the same arithmetic whatever `half_life` is. -/
theorem trend_formula_aux (ws : List ℝ) (h : ℝ) (hne : ws ≠ []) :
    calculate_weight_trend ws h =
      ∑ i ∈ Finset.range ws.length, ws.getD i 0 *
        (Real.exp (-(i : ℝ) / h) / ∑ j ∈ Finset.range ws.length, Real.exp (-(j : ℝ) / h)) ∧
    (normalized_decay_weights ws.length h).sum = 1 := by
  constructor
  · rw [calculate_weight_trend_eq_sum, decay_weights_sum_eq]
  · exact normalized_decay_weights_sum _ _ (List.length_pos.mpr hne)

/-- C4: on a non-empty series with positive half-life, the Trend Estimator
returns the weighted sum of the samples with decay weights
`exp(-i / halfLife)` normalized by their total, and the normalized decay
weights sum to 1 for every series length and half-life. -/
theorem calculate_weight_trend_formula (ws : List ℝ) (h : ℝ)
    (hne : ws ≠ []) (hh : 0 < h) :
    calculate_weight_trend ws h =
      ∑ i ∈ Finset.range ws.length, ws.getD i 0 *
        (Real.exp (-(i : ℝ) / h) / ∑ j ∈ Finset.range ws.length, Real.exp (-(j : ℝ) / h)) ∧
    (normalized_decay_weights ws.length h).sum = 1 :=
  trend_formula_aux ws h hne

/-- Witness for C4 at the one-sample series `[150]` with half-life 7. -/
theorem calculate_weight_trend_formula_witness :
    ([(150 : ℝ)] ≠ []) ∧ ((0 : ℝ) < 7) ∧
    (calculate_weight_trend [(150 : ℝ)] 7 =
      ∑ i ∈ Finset.range (List.length [(150 : ℝ)]), [(150 : ℝ)].getD i 0 *
        (Real.exp (-(i : ℝ) / 7) /
          ∑ j ∈ Finset.range (List.length [(150 : ℝ)]), Real.exp (-(j : ℝ) / 7)) ∧
      (normalized_decay_weights (List.length [(150 : ℝ)]) 7).sum = 1) :=
  ⟨by simp, by norm_num, calculate_weight_trend_formula [(150 : ℝ)] 7 (by simp) (by norm_num)⟩

/-- C5 counterexample: the source performs no half-life validation, so at
the negative half-life -7 `calculate_weight_trend` returns the numeric
value 150 on the series `[150]` instead of failing with an
`InvalidParameter` error. -/
theorem calculate_weight_trend_neg_halflife_cex :
    calculate_weight_trend [(150 : ℝ)] (-7) = 150 :=
  calculate_weight_trend_singleton 150 (-7)

/-- C5 amended: `calculate_weight_trend` accepts any half-life without
validation; for a negative half-life it does not fail but still returns
the normalized exponentially weighted sum (the decay weights, now growing
with age, still sum to 1). -/
theorem calculate_weight_trend_neg_halflife (ws : List ℝ) (h : ℝ)
    (hne : ws ≠ []) (hh : h < 0) :
    calculate_weight_trend ws h =
      ∑ i ∈ Finset.range ws.length, ws.getD i 0 *
        (Real.exp (-(i : ℝ) / h) / ∑ j ∈ Finset.range ws.length, Real.exp (-(j : ℝ) / h)) ∧
    (normalized_decay_weights ws.length h).sum = 1 :=
  trend_formula_aux ws h hne

/-- Witness for the amended C5 at the series `[150]` with half-life -7. -/
theorem calculate_weight_trend_neg_halflife_witness :
    ([(150 : ℝ)] ≠ []) ∧ ((-7 : ℝ) < 0) ∧
    (calculate_weight_trend [(150 : ℝ)] (-7) =
      ∑ i ∈ Finset.range (List.length [(150 : ℝ)]), [(150 : ℝ)].getD i 0 *
        (Real.exp (-(i : ℝ) / (-7)) /
          ∑ j ∈ Finset.range (List.length [(150 : ℝ)]), Real.exp (-(j : ℝ) / (-7))) ∧
      (normalized_decay_weights (List.length [(150 : ℝ)]) (-7)).sum = 1) :=
  ⟨by simp, by norm_num,
    calculate_weight_trend_neg_halflife [(150 : ℝ)] (-7) (by simp) (by norm_num)⟩

/-- C8: on a non-empty series, the Trend Estimator output lies between the
minimum and the maximum of the samples, and a one-sample series returns
its sample exactly. -/
theorem calculate_weight_trend_within_bounds (ws : List ℝ) (h : ℝ)
    (hne : ws ≠ []) (hh : 0 < h) :
    (∃ m M : ℝ, ws.minimum = (m : WithTop ℝ) ∧ ws.maximum = (M : WithBot ℝ) ∧
      m ≤ calculate_weight_trend ws h ∧ calculate_weight_trend ws h ≤ M) ∧
    ∀ w : ℝ, calculate_weight_trend [w] h = w := by
  refine ⟨?_, fun w => calculate_weight_trend_singleton w h⟩
  obtain ⟨m, hm⟩ : ∃ m : ℝ, ws.minimum = (m : WithTop ℝ) := by
    cases hmin : ws.minimum with
    | top => exact absurd (List.minimum_eq_none.mp hmin) hne
    | coe m => exact ⟨m, rfl⟩
  obtain ⟨M, hM⟩ : ∃ M : ℝ, ws.maximum = (M : WithBot ℝ) := by
    cases hmax : ws.maximum with
    | bot => exact absurd (List.maximum_eq_none.mp hmax) hne
    | coe M => exact ⟨M, rfl⟩
  have hbound := calculate_weight_trend_mem_Icc ws h m M hne
    (fun w hw => by
      have := List.minimum_le_of_mem hw hm
      exact_mod_cast this)
    (fun w hw => by
      have := List.le_maximum_of_mem hw hM
      exact_mod_cast this)
  exact ⟨m, M, hm, hM, hbound.1, hbound.2⟩

/-- Witness for C8 at the one-sample series `[150]` with half-life 7. -/
theorem calculate_weight_trend_within_bounds_witness :
    ([(150 : ℝ)] ≠ []) ∧ ((0 : ℝ) < 7) ∧
    ((∃ m M : ℝ, [(150 : ℝ)].minimum = (m : WithTop ℝ) ∧
        [(150 : ℝ)].maximum = (M : WithBot ℝ) ∧
        m ≤ calculate_weight_trend [(150 : ℝ)] 7 ∧
        calculate_weight_trend [(150 : ℝ)] 7 ≤ M) ∧
      ∀ w : ℝ, calculate_weight_trend [w] 7 = w) :=
  ⟨by simp, by norm_num,
    calculate_weight_trend_within_bounds [(150 : ℝ)] 7 (by simp) (by norm_num)⟩

/-! ### Further helpers: field values, rounding offsets, concrete inputs -/

theorem pyRound_add_250 (x : ℝ) : pyRound (x + 0.5 * 3500 / 7) = pyRound x + 250 := by
  have h : (0.5 : ℝ) * 3500 / 7 = ((250 : ℤ) : ℝ) := by norm_num
  rw [add_comm (pyRound x) 250]
  rw [h, pyRound_add_int_of_even x 250 (by decide)]
  ring

theorem pyRound_sub_500 (x : ℝ) : pyRound (x - 1.0 * 3500 / 7) = pyRound x - 500 := by
  have h : x - (1.0 : ℝ) * 3500 / 7 = x + ((-500 : ℤ) : ℝ) := by push_cast; ring
  rw [h, pyRound_add_int_of_even x (-500) (by decide)]
  ring

/-- The BMR field does not depend on the recommendation branch. -/
theorem compute_result_BMR (u : UserProfile) (pal : ℝ) (ws cs : List ℝ) :
    (compute_result u pal ws cs).BMR =
      pyRound (bmr_value u.sex u.age u.height ws.headI * pal) := by
  rcases avg_trichotomy (avg_weight_change_value ws) with h | h | h
  · rw [compute_result_eq_maintaining u pal ws cs h]
  · rw [compute_result_eq_losing u pal ws cs h]
  · rw [compute_result_eq_gaining u pal ws cs h]

/-- The warning field does not depend on the recommendation branch. -/
theorem compute_result_Warning (u : UserProfile) (pal : ℝ) (ws cs : List ℝ) :
    (compute_result u pal ws cs).Warning =
      warning_value (avg_weight_change_value ws) := by
  rcases avg_trichotomy (avg_weight_change_value ws) with h | h | h
  · rw [compute_result_eq_maintaining u pal ws cs h]
  · rw [compute_result_eq_losing u pal ws cs h]
  · rw [compute_result_eq_gaining u pal ws cs h]

/-- The source's sex adjustment `213.8 * (0 if male else 1)` equals the
spec's `0 for male, 213.8 for female (subtracted)`. -/
theorem bmr_value_eq (sex : String) (age height w : ℝ) :
    bmr_value sex age height w =
      129.6 * (w * 0.453592) ^ (0.55 : ℝ) + 0.011 * (height * 2.54) ^ 2
        - (if age ≤ 60 then 1.96 * age else 4.9 * (age - 60))
        - (if sex.toLower = "male" then 0 else 213.8) := by
  unfold bmr_value
  by_cases hs : sex.toLower = "male" <;> simp [hs]

/-- What the warning is on each side of the rapid-change thresholds. -/
theorem warning_value_spec (x : ℝ) :
    (warning_value x ≠ "" ↔ (x < -1.5 ∨ 0.75 < x)) ∧
    (x < -1.5 →
      warning_value x =
        "Warning: You are losing weight too rapidly. Consider increasing calories.") ∧
    (0.75 < x →
      warning_value x =
        "Warning: You are gaining weight too rapidly. Consider reducing calories.") := by
  unfold warning_value
  by_cases h1 : x < -1.5
  · rw [if_pos h1]
    exact ⟨⟨fun _ => Or.inl h1, fun _ => by simp⟩, fun _ => rfl,
      fun h2 => absurd h1 (by linarith)⟩
  · rw [if_neg h1]
    by_cases h2 : x > 0.75
    · rw [if_pos h2]
      exact ⟨⟨fun _ => Or.inr h2, fun _ => by simp⟩, fun hc => absurd hc h1, fun _ => rfl⟩
    · rw [if_neg h2]
      refine ⟨⟨fun hc => absurd rfl hc, fun hc => ?_⟩,
        fun hc => absurd hc h1, fun hc => absurd hc h2⟩
      rcases hc with hc | hc
      · exact absurd hc h1
      · exact absurd hc h2

theorem maintaining_message_ne_empty : maintaining_message ≠ "" := by
  simp [maintaining_message]

theorem losing_message_ne_empty (x : ℝ) : losing_message x ≠ "" := by
  unfold losing_message
  intro hc
  have hlen := congrArg String.length hc
  rw [String.length_append, String.length_append, String.length_append] at hlen
  have h1 : ("You are losing weight at " : String).length = 25 := rfl
  have h2 : (" lbs/week." : String).length = 10 := rfl
  have h3 : ("" : String).length = 0 := rfl
  omega

theorem gaining_message_ne_empty (x : ℝ) : gaining_message x ≠ "" := by
  unfold gaining_message
  intro hc
  have hlen := congrArg String.length hc
  rw [String.length_append, String.length_append, String.length_append] at hlen
  have h1 : ("You are gaining weight at " : String).length = 26 := rfl
  have h2 : (" lbs/week." : String).length = 10 := rfl
  have h3 : ("" : String).length = 0 := rfl
  omega

/-- The trend of a two-sample series, written out. -/
theorem trend_pair (a b h : ℝ) :
    calculate_weight_trend [a, b] h =
      a * (1 / (1 + Real.exp (-1 / h))) +
        b * (Real.exp (-1 / h) / (1 + Real.exp (-1 / h))) := by
  unfold calculate_weight_trend normalized_decay_weights decay_weights
  have h1 : List.range [a, b].length = [0, 1] := rfl
  rw [h1]
  norm_num

/-- The synthetic weekly change of a one-sample series is zero. -/
theorem avg_weight_change_singleton (w : ℝ) : avg_weight_change_value [w] = 0 := by
  unfold avg_weight_change_value
  rw [calculate_weight_trend_singleton]
  simp

/-- On the rising pair `[100, 200]` the weekly change clears the
maintaining band. -/
theorem avg_weight_change_pair_gt :
    (0.1 : ℝ) < avg_weight_change_value [(100 : ℝ), 200] := by
  unfold avg_weight_change_value
  rw [trend_pair]
  have hq0 : 0 < Real.exp (-1 / 7) := Real.exp_pos _
  have hq1 : Real.exp (-1 / 7) ≤ 1 := by
    rw [← Real.exp_zero]
    exact Real.exp_le_exp.mpr (by norm_num)
  have hq2 : (6 : ℝ) / 7 ≤ Real.exp (-1 / 7) := by
    have := Real.add_one_le_exp (-1 / 7)
    linarith
  have hden : (0 : ℝ) < 1 + Real.exp (-1 / 7) := by linarith
  simp only [List.headI, List.length_cons, List.length_nil]
  push_cast
  rw [lt_div_iff₀ (by norm_num : (0 : ℝ) < 2 / 7)]
  have key : 100 * (1 / (1 + Real.exp (-1 / 7)))
        + 200 * (Real.exp (-1 / 7) / (1 + Real.exp (-1 / 7))) - 100
      = 100 * Real.exp (-1 / 7) / (1 + Real.exp (-1 / 7)) := by
    field_simp
    ring
  rw [key, lt_div_iff₀ hden]
  nlinarith [hq2, hq1, hden, hq0]

/-- The concrete profile used by the witnesses: a 30-year-old male, 70
inches tall, sedentary. -/
noncomputable def profile0 : UserProfile :=
  { sex := "male", age := 30, height := 70, activity_level := "sedentary" }

theorem calc_concrete_single :
    calculate_caloric_needs (some profile0) [(150 : ℝ)] [(2000 : ℝ)] =
      Except.ok (compute_result profile0 1.2 [(150 : ℝ)] [(2000 : ℝ)]) :=
  calculate_caloric_needs_ok profile0 1.2 [(150 : ℝ)] [(2000 : ℝ)] (by simp) rfl rfl

theorem calc_concrete_pair :
    calculate_caloric_needs (some profile0) [(100 : ℝ), 200] [(2000 : ℝ), 2000] =
      Except.ok (compute_result profile0 1.2 [(100 : ℝ), 200] [(2000 : ℝ), 2000]) :=
  calculate_caloric_needs_ok profile0 1.2 [(100 : ℝ), 200] [(2000 : ℝ), 2000]
    (by simp) rfl rfl

theorem calc_concrete_scenario :
    calculate_caloric_needs (some profile0) [(180 : ℝ)] [(2500 : ℝ)] =
      Except.ok (compute_result profile0 1.2 [(180 : ℝ)] [(2500 : ℝ)]) :=
  calculate_caloric_needs_ok profile0 1.2 [(180 : ℝ)] [(2500 : ℝ)] (by simp) rfl rfl

/-- C2: every successful result's BMR field is the Katch-McArdle-style
regression value for the most recent weight, adjusted for age and sex,
multiplied by the activity factor of the recognized level and rounded;
the factor table is sedentary 1.2, lightly active 1.375, moderately
active 1.55, very active 1.725, extremely active 1.9. -/
theorem calculate_caloric_needs_bmr_formula (u : UserProfile) (ws cs : List ℝ)
    (pal : ℝ) (r : CaloricNeedsResult)
    (hpal : pal_dict u.activity_level = some pal)
    (hok : calculate_caloric_needs (some u) ws cs = Except.ok r) :
    r.BMR = pyRound ((129.6 * (ws.headI * 0.453592) ^ (0.55 : ℝ)
        + 0.011 * (u.height * 2.54) ^ 2
        - (if u.age ≤ 60 then 1.96 * u.age else 4.9 * (u.age - 60))
        - (if u.sex.toLower = "male" then 0 else 213.8)) * pal) ∧
    pal_dict "sedentary" = some 1.2 ∧ pal_dict "lightly active" = some 1.375 ∧
    pal_dict "moderately active" = some 1.55 ∧ pal_dict "very active" = some 1.725 ∧
    pal_dict "extremely active" = some 1.9 := by
  obtain ⟨u', pal', hu, hp, hr, -, -, -⟩ :=
    calculate_caloric_needs_ok_inv _ ws cs r hok
  injection hu with hu
  subst hu
  rw [hpal] at hp
  injection hp with hp
  subst hp
  subst hr
  refine ⟨?_, rfl, rfl, rfl, rfl, rfl⟩
  rw [compute_result_BMR, bmr_value_eq]

/-- Witness for C2: a sedentary 30-year-old male, 70 inches, one day of
data at 180 lbs and 2500 kcal. -/
theorem calculate_caloric_needs_bmr_formula_witness :
    (compute_result profile0 1.2 [(180 : ℝ)] [(2500 : ℝ)]).BMR =
      pyRound ((129.6 * (List.headI [(180 : ℝ)] * 0.453592) ^ (0.55 : ℝ)
        + 0.011 * (profile0.height * 2.54) ^ 2
        - (if profile0.age ≤ 60 then 1.96 * profile0.age else 4.9 * (profile0.age - 60))
        - (if profile0.sex.toLower = "male" then 0 else 213.8)) * 1.2) ∧
    pal_dict "sedentary" = some 1.2 ∧ pal_dict "lightly active" = some 1.375 ∧
    pal_dict "moderately active" = some 1.55 ∧ pal_dict "very active" = some 1.725 ∧
    pal_dict "extremely active" = some 1.9 :=
  calculate_caloric_needs_bmr_formula profile0 [(180 : ℝ)] [(2500 : ℝ)] 1.2 _
    rfl calc_concrete_scenario

/-- C3: outside the maintaining band, the returned targets come from
`maintenance = average(calories) - avgWeightChangePerWeek * 3500` with
`gain = maintenance + 250` and `lose = maintenance - 500` (rounded), the
weekly change being the trend displacement with half-life 7 scaled by
`len(weights) / 7`. -/
theorem calculate_caloric_needs_default_targets (u : UserProfile) (ws cs : List ℝ)
    (r : CaloricNeedsResult)
    (hok : calculate_caloric_needs (some u) ws cs = Except.ok r)
    (hout : ¬(-(0.1 : ℝ) ≤ avg_weight_change_value ws ∧
      avg_weight_change_value ws ≤ 0.1)) :
    r.Maintenance =
      pyRound (cs.sum / (cs.length : ℝ) - avg_weight_change_value ws * 3500) ∧
    r.Gain =
      pyRound (cs.sum / (cs.length : ℝ) - avg_weight_change_value ws * 3500) + 250 ∧
    r.Lose =
      pyRound (cs.sum / (cs.length : ℝ) - avg_weight_change_value ws * 3500) - 500 ∧
    avg_weight_change_value ws =
      (calculate_weight_trend ws 7 - ws.headI) / ((ws.length : ℝ) / 7) := by
  obtain ⟨u', pal, hu, hp, hr, -, -, -⟩ :=
    calculate_caloric_needs_ok_inv _ ws cs r hok
  injection hu with hu
  subst hu
  subst hr
  have hm : maintenance_value ws cs =
      cs.sum / (cs.length : ℝ) - avg_weight_change_value ws * 3500 := rfl
  rcases avg_trichotomy (avg_weight_change_value ws) with h | h | h
  · exact absurd h hout
  · rw [compute_result_eq_losing u pal ws cs h]
    refine ⟨by rw [← hm], ?_, ?_, rfl⟩
    · show pyRound (maintenance_value ws cs + 0.5 * 3500 / 7) = _
      rw [pyRound_add_250, hm]
    · show pyRound (maintenance_value ws cs - 1.0 * 3500 / 7) = _
      rw [pyRound_sub_500, hm]
  · rw [compute_result_eq_gaining u pal ws cs h]
    refine ⟨by rw [← hm], ?_, ?_, rfl⟩
    · show pyRound (maintenance_value ws cs + 0.5 * 3500 / 7) = _
      rw [pyRound_add_250, hm]
    · show pyRound (maintenance_value ws cs - 1.0 * 3500 / 7) = _
      rw [pyRound_sub_500, hm]

/-- Witness for C3: two days of data rising from 100 to 200 lbs at a
constant 2000 kcal, which puts the weekly change far above the band. -/
theorem calculate_caloric_needs_default_targets_witness :
    (compute_result profile0 1.2 [(100 : ℝ), 200] [(2000 : ℝ), 2000]).Maintenance =
      pyRound ([(2000 : ℝ), 2000].sum / ((List.length [(2000 : ℝ), 2000] : ℕ) : ℝ)
        - avg_weight_change_value [(100 : ℝ), 200] * 3500) ∧
    (compute_result profile0 1.2 [(100 : ℝ), 200] [(2000 : ℝ), 2000]).Gain =
      pyRound ([(2000 : ℝ), 2000].sum / ((List.length [(2000 : ℝ), 2000] : ℕ) : ℝ)
        - avg_weight_change_value [(100 : ℝ), 200] * 3500) + 250 ∧
    (compute_result profile0 1.2 [(100 : ℝ), 200] [(2000 : ℝ), 2000]).Lose =
      pyRound ([(2000 : ℝ), 2000].sum / ((List.length [(2000 : ℝ), 2000] : ℕ) : ℝ)
        - avg_weight_change_value [(100 : ℝ), 200] * 3500) - 500 ∧
    avg_weight_change_value [(100 : ℝ), 200] =
      (calculate_weight_trend [(100 : ℝ), 200] 7 - List.headI [(100 : ℝ), 200]) /
        (((List.length [(100 : ℝ), 200] : ℕ) : ℝ) / 7) :=
  calculate_caloric_needs_default_targets profile0 [(100 : ℝ), 200]
    [(2000 : ℝ), 2000] _ calc_concrete_pair
    (fun hc => absurd avg_weight_change_pair_gt (not_lt.mpr hc.2))

/-- C6: inside the band `[-0.1, 0.1]` the calculator overrides the
maintenance target with the most recent day's rounded intake, rebuilds
the gain and lose targets as that value plus 250 and minus 500, and
returns the fixed maintaining-weight recommendation. -/
theorem calculate_caloric_needs_maintaining_override (u : UserProfile)
    (ws cs : List ℝ) (r : CaloricNeedsResult)
    (hok : calculate_caloric_needs (some u) ws cs = Except.ok r)
    (hin : -(0.1 : ℝ) ≤ avg_weight_change_value ws ∧
      avg_weight_change_value ws ≤ 0.1) :
    r.Maintenance = pyRound cs.headI ∧
    r.Gain = pyRound cs.headI + 250 ∧
    r.Lose = pyRound cs.headI - 500 ∧
    r.Recommendation = maintaining_message := by
  obtain ⟨u', pal, hu, hp, hr, -, -, -⟩ :=
    calculate_caloric_needs_ok_inv _ ws cs r hok
  injection hu with hu
  subst hu
  subst hr
  rw [compute_result_eq_maintaining u pal ws cs hin]
  refine ⟨?_, ?_, ?_, rfl⟩
  · show pyRound ((pyRound cs.headI : ℝ)) = pyRound cs.headI
    exact pyRound_intCast _
  · show pyRound ((pyRound cs.headI : ℝ) + 0.5 * 3500 / 7) = pyRound cs.headI + 250
    rw [pyRound_add_250, pyRound_intCast]
  · show pyRound ((pyRound cs.headI : ℝ) - 1.0 * 3500 / 7) = pyRound cs.headI - 500
    rw [pyRound_sub_500, pyRound_intCast]

/-- Witness for C6: the single-day input weights `[150]`, calories
`[2000]` (synthetic weekly change 0) yields maintenance 2000, gain 2250,
lose 1500 and the maintaining recommendation. -/
theorem calculate_caloric_needs_maintaining_override_witness :
    (compute_result profile0 1.2 [(150 : ℝ)] [(2000 : ℝ)]).Maintenance = 2000 ∧
    (compute_result profile0 1.2 [(150 : ℝ)] [(2000 : ℝ)]).Gain = 2250 ∧
    (compute_result profile0 1.2 [(150 : ℝ)] [(2000 : ℝ)]).Lose = 1500 ∧
    (compute_result profile0 1.2 [(150 : ℝ)] [(2000 : ℝ)]).Recommendation =
      maintaining_message := by
  have h := calculate_caloric_needs_maintaining_override profile0 [(150 : ℝ)]
    [(2000 : ℝ)] _ calc_concrete_single
    (by rw [avg_weight_change_singleton]; norm_num)
  have h2000 : pyRound (List.headI [(2000 : ℝ)]) = 2000 := by
    have hcast : List.headI [(2000 : ℝ)] = ((2000 : ℤ) : ℝ) := by norm_num
    rw [hcast, pyRound_intCast]
  rw [h2000] at h
  obtain ⟨ha, hb, hc, hd⟩ := h
  refine ⟨ha, ?_, ?_, hd⟩
  · rw [hb]; norm_num
  · rw [hc]; norm_num

/-- C7: on every successful result, the warning field is non-empty exactly
when the weekly change is below -1.5 (losing-too-rapidly message) or
above 0.75 (gaining-too-rapidly message), and it is computed by the same
rule in every recommendation branch. -/
theorem calculate_caloric_needs_warning_iff (u : UserProfile) (ws cs : List ℝ)
    (r : CaloricNeedsResult)
    (hok : calculate_caloric_needs (some u) ws cs = Except.ok r) :
    (r.Warning ≠ "" ↔
      (avg_weight_change_value ws < -1.5 ∨ 0.75 < avg_weight_change_value ws)) ∧
    (avg_weight_change_value ws < -1.5 →
      r.Warning =
        "Warning: You are losing weight too rapidly. Consider increasing calories.") ∧
    (0.75 < avg_weight_change_value ws →
      r.Warning =
        "Warning: You are gaining weight too rapidly. Consider reducing calories.") ∧
    r.Warning = warning_value (avg_weight_change_value ws) := by
  obtain ⟨u', pal, hu, hp, hr, -, -, -⟩ :=
    calculate_caloric_needs_ok_inv _ ws cs r hok
  subst hr
  rw [compute_result_Warning]
  exact ⟨(warning_value_spec _).1, (warning_value_spec _).2.1,
    (warning_value_spec _).2.2, rfl⟩

/-- Witness for C7 at the single-day input (weekly change 0: no warning). -/
theorem calculate_caloric_needs_warning_iff_witness :
    ((compute_result profile0 1.2 [(150 : ℝ)] [(2000 : ℝ)]).Warning ≠ "" ↔
      (avg_weight_change_value [(150 : ℝ)] < -1.5 ∨
        0.75 < avg_weight_change_value [(150 : ℝ)])) ∧
    (avg_weight_change_value [(150 : ℝ)] < -1.5 →
      (compute_result profile0 1.2 [(150 : ℝ)] [(2000 : ℝ)]).Warning =
        "Warning: You are losing weight too rapidly. Consider increasing calories.") ∧
    (0.75 < avg_weight_change_value [(150 : ℝ)] →
      (compute_result profile0 1.2 [(150 : ℝ)] [(2000 : ℝ)]).Warning =
        "Warning: You are gaining weight too rapidly. Consider reducing calories.") ∧
    (compute_result profile0 1.2 [(150 : ℝ)] [(2000 : ℝ)]).Warning =
      warning_value (avg_weight_change_value [(150 : ℝ)]) :=
  calculate_caloric_needs_warning_iff profile0 [(150 : ℝ)] [(2000 : ℝ)] _
    calc_concrete_single

/-- C9: on every successful result the returned integer fields satisfy
Gain = Maintenance + 250 and Lose = Maintenance - 500 exactly, in the
maintaining-override branch and in the default branches alike, because
the whole-number offsets commute with the final rounding. -/
theorem calculate_caloric_needs_gain_lose_offsets (ud : Option UserProfile)
    (ws cs : List ℝ) (r : CaloricNeedsResult)
    (hok : calculate_caloric_needs ud ws cs = Except.ok r) :
    r.Gain = r.Maintenance + 250 ∧ r.Lose = r.Maintenance - 500 := by
  obtain ⟨u, pal, hu, hp, hr, -, -, -⟩ :=
    calculate_caloric_needs_ok_inv ud ws cs r hok
  subst hr
  rcases avg_trichotomy (avg_weight_change_value ws) with h | h | h
  · rw [compute_result_eq_maintaining u pal ws cs h]
    exact ⟨pyRound_add_250 _, pyRound_sub_500 _⟩
  · rw [compute_result_eq_losing u pal ws cs h]
    exact ⟨pyRound_add_250 _, pyRound_sub_500 _⟩
  · rw [compute_result_eq_gaining u pal ws cs h]
    exact ⟨pyRound_add_250 _, pyRound_sub_500 _⟩

/-- Witness for C9 at the single-day input. -/
theorem calculate_caloric_needs_gain_lose_offsets_witness :
    (compute_result profile0 1.2 [(150 : ℝ)] [(2000 : ℝ)]).Gain =
      (compute_result profile0 1.2 [(150 : ℝ)] [(2000 : ℝ)]).Maintenance + 250 ∧
    (compute_result profile0 1.2 [(150 : ℝ)] [(2000 : ℝ)]).Lose =
      (compute_result profile0 1.2 [(150 : ℝ)] [(2000 : ℝ)]).Maintenance - 500 :=
  calculate_caloric_needs_gain_lose_offsets (some profile0) [(150 : ℝ)]
    [(2000 : ℝ)] _ calc_concrete_single

/-- C10: every successful result carries a non-empty recommendation: the
three comparisons against the band cover all real weekly-change values,
so the fallback branch with the empty recommendation is unreachable. -/
theorem calculate_caloric_needs_recommendation_nonempty (ud : Option UserProfile)
    (ws cs : List ℝ) (r : CaloricNeedsResult)
    (hok : calculate_caloric_needs ud ws cs = Except.ok r) :
    r.Recommendation ≠ "" := by
  obtain ⟨u, pal, hu, hp, hr, -, -, -⟩ :=
    calculate_caloric_needs_ok_inv ud ws cs r hok
  subst hr
  rcases avg_trichotomy (avg_weight_change_value ws) with h | h | h
  · rw [compute_result_eq_maintaining u pal ws cs h]
    exact maintaining_message_ne_empty
  · rw [compute_result_eq_losing u pal ws cs h]
    exact losing_message_ne_empty _
  · rw [compute_result_eq_gaining u pal ws cs h]
    exact gaining_message_ne_empty _

/-- Witness for C10 at the single-day input. -/
theorem calculate_caloric_needs_recommendation_nonempty_witness :
    (compute_result profile0 1.2 [(150 : ℝ)] [(2000 : ℝ)]).Recommendation ≠ "" :=
  calculate_caloric_needs_recommendation_nonempty (some profile0) [(150 : ℝ)]
    [(2000 : ℝ)] _ calc_concrete_single

end CalCulator
